import Mathlib

/-!
Verification of the two-state switch and the `to_tuple` output-arity adapter
of `bevy_async_system`.

The shallow embedding mirrors `src/action/switch.rs` and `src/action.rs`:

* `Switch` embeds the Rust struct `Switch<M>` (the `PhantomData<M>` marker is a
  compile-time tag distinguishing instances and carries no run-time state, so it
  is omitted; every definition here is the model of the switch belonging to one
  fixed marker type).
* The four exported condition systems `switch_is_on`, `switch_is_off`,
  `switch_just_turned_on`, `switch_just_turned_off` take the (possibly absent)
  `Switch` resource as `Option Switch`.  A `Local<bool>` parameter in Bevy is a
  private per-call-site latch, initialised `false`; it is embedded as an explicit
  latch argument, with the updated latch returned alongside the boolean result.
  The systems receive the switch via `Res` (immutably), so they return no
  modified switch.
* `Switch.setup` receives the world's switch-resource slot as `Option Switch`;
  Bevy's `World::insert_resource` stores the given value, overwriting any
  resource of the same type already present.
-/

namespace BevyAsyncSystem

/-- Embedding of Rust's `Option::is_some_and`. -/
def is_some_and {α : Type} (o : Option α) (p : α → Bool) : Bool :=
  match o with
  | some a => p a
  | none => false

/-- The struct `Switch<M>` from `src/action/switch.rs` (marker `M` erased). -/
structure Switch where
  just_change : Bool
  turned_on : Bool
  checked : Bool
deriving DecidableEq, Repr

/-- `Switch::new(turn_on)`: `just_change: true, turned_on: turn_on, checked: false`. -/
def Switch.new (turn_on : Bool) : Switch :=
  { just_change := true, turned_on := turn_on, checked := false }

/-- `impl Default for Switch`: `Self::new(false)`. -/
def Switch.mkDefault : Switch :=
  Switch.new false

/-- `Switch::is_on`: returns `self.turned_on`. -/
def Switch.is_on (s : Switch) : Bool :=
  s.turned_on

/-- `Switch::is_off`: returns `!self.turned_on`. -/
def Switch.is_off (s : Switch) : Bool :=
  !s.turned_on

/-- `Switch::on`: if `self.is_off()` then set `just_change` and `turned_on`. -/
def Switch.on (s : Switch) : Switch :=
  if s.is_off then { s with just_change := true, turned_on := true } else s

/-- `Switch::off`: if `self.turned_on` then set `just_change` and clear `turned_on`. -/
def Switch.off (s : Switch) : Switch :=
  if s.turned_on then { s with just_change := true, turned_on := false } else s

/-- `Switch::set(turn_on)`: calls `on()` when `turn_on`, else `off()`. -/
def Switch.set (s : Switch) (turn_on : Bool) : Switch :=
  if turn_on then s.on else s.off

/-- `Switch::setup(world, turn_on)`: `world.insert_resource(Self::new(turn_on))`.
`insert_resource` overwrites any existing resource of the same type, so the
slot afterwards holds a fresh `Switch::new(turn_on)` whatever it held before. -/
def Switch.setup (world : Option Switch) (turn_on : Bool) : Option Switch :=
  let _ := world
  some (Switch.new turn_on)

/-- `switch_is_on`: `switch.is_some_and(|s| s.is_on())`. -/
def switch_is_on (switch : Option Switch) : Bool :=
  is_some_and switch Switch.is_on

/-- `switch_is_off`: `switch.is_some_and(|s| s.is_off())`. -/
def switch_is_off (switch : Option Switch) : Bool :=
  is_some_and switch Switch.is_off

/-- `switch_just_turned_on`: given the resource and the caller's private
`Local<bool>` latch `is_on`, returns the boolean result paired with the
latch's new value. -/
def switch_just_turned_on (switch : Option Switch) (is_on : Bool) : Bool × Bool :=
  if is_some_and switch Switch.is_on then
    if is_on then (false, is_on)
    else (true, true)
  else (false, false)

/-- `switch_just_turned_off`: given the resource and the caller's private
`Local<bool>` latch `is_off`, returns the boolean result paired with the
latch's new value. -/
def switch_just_turned_off (switch : Option Switch) (is_off : Bool) : Bool × Bool :=
  if is_some_and switch Switch.is_off then
    if is_off then (false, is_off)
    else (true, true)
  else (false, false)

/-- Results of `n` successive `switch_just_turned_on` polls by one observer,
threading that observer's private latch; the switch itself is read via `Res`,
hence unchanged between polls. -/
def run_queries_on (switch : Option Switch) : Bool → Nat → List Bool
  | _, 0 => []
  | latch, n + 1 =>
    let q := switch_just_turned_on switch latch
    q.fst :: run_queries_on switch q.snd n

/-- Results of `n` successive `switch_just_turned_off` polls by one observer. -/
def run_queries_off (switch : Option Switch) : Bool → Nat → List Bool
  | _, 0 => []
  | latch, n + 1 =>
    let q := switch_just_turned_off switch latch
    q.fst :: run_queries_off switch q.snd n

/-- Tag for one of two independent edge observers of the same switch. -/
inductive Obs
  | A
  | B
deriving DecidableEq, Repr

/-- Run an interleaved sequence of `switch_just_turned_off` polls by two
independent observers, each with its own private latch, against one shared
switch resource; returns each observer's result sequence. -/
def run_two_off (switch : Option Switch) : Bool → Bool → List Obs → List Bool × List Bool
  | _, _, [] => ([], [])
  | la, lb, Obs.A :: rest =>
    let q := switch_just_turned_off switch la
    let r := run_two_off switch q.snd lb rest
    (q.fst :: r.fst, r.snd)
  | la, lb, Obs.B :: rest =>
    let q := switch_just_turned_off switch lb
    let r := run_two_off switch la q.snd rest
    (r.fst, q.fst :: r.snd)

/-- States of one marker type's `Switch` reachable from a constructor by the
public mutating operations shown in the source (`on`, `off`, `set`; the
predicates and the four exported condition systems read the switch immutably). -/
inductive Switch.Reachable : Switch → Prop
  | new (b : Bool) : Switch.Reachable (Switch.new b)
  | mkDefault : Switch.Reachable Switch.mkDefault
  | on_step {s : Switch} : Switch.Reachable s → Switch.Reachable s.on
  | off_step {s : Switch} : Switch.Reachable s → Switch.Reachable s.off
  | set_step {s : Switch} (b : Bool) : Switch.Reachable s → Switch.Reachable (s.set b)

/-- A one-element ordered tuple, embedding Rust's `(O,)`. -/
structure Tuple1 (α : Type) where
  elem : α
deriving DecidableEq, Repr

/-- Modelled from the spec: the module `crate::runner` (its `CancellationToken`,
`TaskOutput` and `TaskRunner`) is not among the shown sources.  Per the spec, a
Cancellation Token is a shared boolean flag (`cancel()` sets it, cloning shares
the same flag), an Output Slot is a shared optional single value (`take()`
returns and clears it, `replace` overwrites), and a Runner steps against the
world and reports completion.  `InnerState` gathers the state reachable from
the `to_tuple` runner's fields: the world `W`, the inner runner's private state
`R`, and the shared flag/slot of the inner token and inner output slot that
`to_tuple` created and cloned into the inner runner. -/
structure InnerState (W R O : Type) where
  world : W
  inner : R
  innerCancel : Bool
  innerOut : Option O

/-- One `run` step of the inner `TaskRunner`.  The inner runner holds clones of
the inner token and inner output slot, so its step may read and write every
`InnerState` component; its returned completion flag is modelled too, although
`to_tuple` discards it. -/
def InnerStep (W R O : Type) : Type :=
  InnerState W R O → InnerState W R O × Bool

/-- `run_with_task_output` of the runner built by `to_tuple`
(`src/action.rs`): `token` is the current value of the runner's own
cancellation token, `st` the state shared with the inner runner, `output` the
runner's own output slot.  Returns the completion flag, the updated shared
state, and the updated own output slot. -/
def run_with_task_output {W R O : Type} (step : InnerStep W R O)
    (token : Bool) (st : InnerState W R O) (output : Option (Tuple1 O)) :
    Bool × InnerState W R O × Option (Tuple1 O) :=
  if token then
    (true, { st with innerCancel := true }, output)
  else
    let st1 := (step st).fst
    match st1.innerOut with
    | some o => (true, { st1 with innerOut := none }, some ⟨o⟩)
    | none => (false, st1, output)

/-- Number of polls a given observer performs in an interleaved event list. -/
def count_obs (o : Obs) : List Obs → Nat
  | [] => 0
  | e :: rest => if e = o then count_obs o rest + 1 else count_obs o rest

/-- A sample inner-runner step for concrete instantiations: writes `7` to the
inner output slot. -/
def step_writes_seven : InnerStep Unit Unit Nat :=
  fun st => ({ st with innerOut := some 7 }, true)

/-- A sample inner-runner step that makes no progress. -/
def step_writes_nothing : InnerStep Unit Unit Nat :=
  fun st => (st, false)

/-- A concrete initial shared state for the sample runners. -/
def init_inner_state : InnerState Unit Unit Nat :=
  { world := (), inner := (), innerCancel := false, innerOut := none }

theorem Switch.on_just_change {s : Switch} (h : s.just_change = true) :
    s.on.just_change = true := by
  unfold Switch.on
  split <;> simp [h]

theorem Switch.off_just_change {s : Switch} (h : s.just_change = true) :
    s.off.just_change = true := by
  unfold Switch.off
  split <;> simp [h]

theorem Switch.set_just_change {s : Switch} (b : Bool) (h : s.just_change = true) :
    (s.set b).just_change = true := by
  cases b
  · simpa [Switch.set] using Switch.off_just_change h
  · simpa [Switch.set] using Switch.on_just_change h

theorem run_queries_on_all_false {s : Switch} (hs : s.is_on = true) :
    ∀ n, run_queries_on (some s) true n = List.replicate n false := by
  intro n
  induction n with
  | zero => rfl
  | succ n ih =>
    simp only [run_queries_on]
    simp [switch_just_turned_on, is_some_and, hs, ih, List.replicate_succ]

theorem run_queries_on_once {s : Switch} (hs : s.is_on = true) (n : Nat) :
    run_queries_on (some s) false (n + 1) = true :: List.replicate n false := by
  simp only [run_queries_on]
  simp [switch_just_turned_on, is_some_and, hs, run_queries_on_all_false hs n]

theorem run_queries_off_all_false {s : Switch} (hs : s.is_off = true) :
    ∀ n, run_queries_off (some s) true n = List.replicate n false := by
  intro n
  induction n with
  | zero => rfl
  | succ n ih =>
    simp only [run_queries_off]
    simp [switch_just_turned_off, is_some_and, hs, ih, List.replicate_succ]

theorem run_queries_off_once {s : Switch} (hs : s.is_off = true) (n : Nat) :
    run_queries_off (some s) false (n + 1) = true :: List.replicate n false := by
  simp only [run_queries_off]
  simp [switch_just_turned_off, is_some_and, hs, run_queries_off_all_false hs n]

theorem run_two_off_eq (switch : Option Switch) :
    ∀ (evs : List Obs) (la lb : Bool),
      run_two_off switch la lb evs =
        (run_queries_off switch la (count_obs Obs.A evs),
         run_queries_off switch lb (count_obs Obs.B evs)) := by
  intro evs
  induction evs with
  | nil => intro la lb; rfl
  | cons e rest ih =>
    intro la lb
    cases e
    · simp only [run_two_off, count_obs]
      rw [ih]
      simp [run_queries_off]
    · simp only [run_two_off, count_obs]
      rw [ih]
      simp [run_queries_off]

/-- C1: edge detection reports a transition exactly once per observer.  For an
observer whose private latch is `false` (its initial value, restored by every
poll that observes the opposite state): once the switch is on, `n + 1`
successive `switch_just_turned_on` polls yield `true` then `n` times `false`;
symmetrically for `switch_just_turned_off` once the switch is off.  The
concrete scenario `on(); on()` from off then two polls yields `true` then
`false`.  Finally, for two independent observers of a switch that has turned
off, any interleaving of their `switch_just_turned_off` polls gives each
observer `true` exactly once, on its first poll, independent of query order. -/
theorem edge_queries_report_each_transition_once :
    (∀ (s : Switch) (n : Nat), s.is_on = true →
        run_queries_on (some s) false (n + 1) = true :: List.replicate n false) ∧
    (∀ (s : Switch) (n : Nat), s.is_off = true →
        run_queries_off (some s) false (n + 1) = true :: List.replicate n false) ∧
    run_queries_on (some ((Switch.new false).on.on)) false 2 = [true, false] ∧
    (∀ (s : Switch) (evs : List Obs) (n m : Nat), s.is_off = true →
        count_obs Obs.A evs = n + 1 → count_obs Obs.B evs = m + 1 →
        (run_two_off (some s) false false evs).fst = true :: List.replicate n false ∧
        (run_two_off (some s) false false evs).snd = true :: List.replicate m false) := by
  refine ⟨fun s n hs => run_queries_on_once hs n,
          fun s n hs => run_queries_off_once hs n,
          by decide,
          fun s evs n m hs hA hB => ?_⟩
  rw [run_two_off_eq (some s) evs false false]
  constructor
  · show run_queries_off (some s) false (count_obs Obs.A evs) = _
    rw [hA]
    exact run_queries_off_once hs n
  · show run_queries_off (some s) false (count_obs Obs.B evs) = _
    rw [hB]
    exact run_queries_off_once hs m

/-- C1 witness: the theorem instantiated at the switch turned on from off
(two polls: `true` then `false`) and at a just-turned-off switch polled by
observers A and B in the interleaving B, A, A, B. -/
theorem edge_queries_report_each_transition_once_witness :
    run_queries_on (some ((Switch.new false).on)) false 2 = true :: List.replicate 1 false ∧
    (run_two_off (some ((Switch.new true).off)) false false
        [Obs.B, Obs.A, Obs.A, Obs.B]).fst = true :: List.replicate 1 false ∧
    (run_two_off (some ((Switch.new true).off)) false false
        [Obs.B, Obs.A, Obs.A, Obs.B]).snd = true :: List.replicate 1 false :=
  ⟨edge_queries_report_each_transition_once.1 ((Switch.new false).on) 1 (by decide),
   (edge_queries_report_each_transition_once.2.2.2 ((Switch.new true).off)
      [Obs.B, Obs.A, Obs.A, Obs.B] 1 1 (by decide) (by decide) (by decide)).1,
   (edge_queries_report_each_transition_once.2.2.2 ((Switch.new true).off)
      [Obs.B, Obs.A, Obs.A, Obs.B] 1 1 (by decide) (by decide) (by decide)).2⟩

/-- C2: on a poll whose own token has not requested cancellation, the
`to_tuple` runner steps the inner runner exactly once; if the inner output
slot then holds `o`, the runner takes it (clearing the inner slot), writes the
one-element tuple to its own output slot and returns `true`; if the inner slot
is empty it writes nothing (its own slot is unchanged) and returns `false`. -/
theorem to_tuple_steps_inner_and_wraps {W R O : Type} (step : InnerStep W R O)
    (st : InnerState W R O) (output : Option (Tuple1 O)) :
    (∀ o : O, ((step st).fst).innerOut = some o →
        run_with_task_output step false st output =
          (true, { (step st).fst with innerOut := none }, some ⟨o⟩)) ∧
    (((step st).fst).innerOut = none →
        run_with_task_output step false st output = (false, (step st).fst, output)) := by
  unfold run_with_task_output
  constructor
  · intro o h
    simp [h]
  · intro h
    simp [h]

/-- C2 witness: the theorem applied to a concrete inner step that writes `7`
(completing, with `(7,)` in the adapter's slot) and to one that writes nothing
(not complete, slot untouched). -/
theorem to_tuple_steps_inner_and_wraps_witness :
    run_with_task_output step_writes_seven false init_inner_state none =
      (true, init_inner_state, some ⟨7⟩) ∧
    run_with_task_output step_writes_nothing false init_inner_state none =
      (false, init_inner_state, none) :=
  ⟨(to_tuple_steps_inner_and_wraps step_writes_seven init_inner_state none).1 7 rfl,
   (to_tuple_steps_inner_and_wraps step_writes_nothing init_inner_state none).2 rfl⟩

/-- C3: on a poll whose own token has requested cancellation, the `to_tuple`
runner propagates cancellation to the inner token, returns `true` immediately
with the world and the inner runner's state untouched (the inner runner is not
stepped), and leaves its own output slot exactly as it was — in particular an
empty slot stays empty. -/
theorem to_tuple_cancelled_short_circuits {W R O : Type} (step : InnerStep W R O)
    (st : InnerState W R O) (output : Option (Tuple1 O)) :
    run_with_task_output step true st output =
      (true, { st with innerCancel := true }, output) ∧
    (output = none → (run_with_task_output step true st output).snd.snd = none) := by
  constructor
  · rfl
  · intro h
    simp [run_with_task_output, h]

/-- C3 witness: even with an inner step that would write `7`, a cancelled poll
completes at once with the inner slot still empty (the inner runner was not
stepped), the inner token cancelled, and no output produced. -/
theorem to_tuple_cancelled_short_circuits_witness :
    run_with_task_output step_writes_seven true init_inner_state none =
      (true, { init_inner_state with innerCancel := true }, none) ∧
    (run_with_task_output step_writes_seven true init_inner_state none).snd.snd = none :=
  ⟨(to_tuple_cancelled_short_circuits step_writes_seven init_inner_state none).1,
   (to_tuple_cancelled_short_circuits step_writes_seven init_inner_state none).2 rfl⟩

/-- C4 counterexample: a switch fresh from the constructor, before any `on()`
or `off()` call, already carries `just_change = true`, although no effective
transition has occurred — so `just_change` does not become true *only* through
an effective transition.  (Moreover the edge-detection queries receive the
switch immutably — their embedding returns only the result and the private
latch — so no query ever resets `just_change` to false.) -/
theorem just_change_true_without_transition :
    (Switch.new false).just_change = true ∧ (Switch.new true).just_change = true := by
  decide

/-- C4 amended: every effective transition (an `on()` on an off switch, an
`off()` on an on switch) sets `just_change`; however `just_change` is already
true at creation, and once true it is never reset by any shown operation —
`on`, `off` and `set` preserve it, and the edge-detection queries do not
consume it. -/
theorem just_change_set_by_transition_never_reset :
    (∀ b : Bool, (Switch.new b).just_change = true) ∧
    (∀ s : Switch, s.is_off = true → s.on.just_change = true) ∧
    (∀ s : Switch, s.is_on = true → s.off.just_change = true) ∧
    (∀ (s : Switch) (b : Bool), s.just_change = true →
        s.on.just_change = true ∧ s.off.just_change = true ∧
        (s.set b).just_change = true) := by
  refine ⟨fun b => rfl, fun s hs => ?_, fun s hs => ?_, fun s b h =>
    ⟨Switch.on_just_change h, Switch.off_just_change h, Switch.set_just_change b h⟩⟩
  · unfold Switch.on
    simp [hs]
  · unfold Switch.off
    simp [Switch.is_on] at hs
    simp [hs]

/-- C4 amended witness: the amended theorem applied to concrete switches. -/
theorem just_change_set_by_transition_never_reset_witness :
    (Switch.new false).on.just_change = true ∧
    (Switch.new true).off.just_change = true ∧
    ((Switch.new true).set false).just_change = true :=
  ⟨just_change_set_by_transition_never_reset.2.1 (Switch.new false) (by decide),
   just_change_set_by_transition_never_reset.2.2.1 (Switch.new true) (by decide),
   (just_change_set_by_transition_never_reset.2.2.2 (Switch.new true) false rfl).2.2⟩

/-- C5: `on()` on an already-on switch leaves the whole state (`turned_on`,
`just_change` and `checked` alike) unchanged, and `off()` on an already-off
switch likewise; after `on()` the switch is on and after `off()` it is off,
with no failure mode (both are total functions). -/
theorem on_off_noop_when_already (s : Switch) :
    (s.is_on = true → s.on = s) ∧
    (s.is_off = true → s.off = s) ∧
    s.on.is_on = true ∧ s.off.is_off = true := by
  rcases s with ⟨jc, t, c⟩
  cases t <;>
    simp [Switch.on, Switch.off, Switch.is_on, Switch.is_off]

/-- C5 witness: the theorem applied to concrete on and off switches. -/
theorem on_off_noop_when_already_witness :
    (Switch.new true).on = Switch.new true ∧
    (Switch.new false).off = Switch.new false :=
  ⟨(on_off_noop_when_already (Switch.new true)).1 (by decide),
   (on_off_noop_when_already (Switch.new false)).2.1 (by decide)⟩

/-- C6 counterexample: `setup` does not preserve an existing switch.  With an
existing on-switch in the world, a later `setup(world, false)` for the same
marker type replaces it by a fresh off-switch — the existing instance's state
is reset, contrary to the claim. -/
theorem setup_resets_existing_switch :
    Switch.setup (some (Switch.new true)) false = some (Switch.new false) ∧
    Switch.new false ≠ Switch.new true := by
  decide

/-- C6 amended: `setup` unconditionally inserts `Switch::new(turn_on)`
(Bevy's `insert_resource` overwrites an existing resource of the same type),
so the resulting slot holds the fresh switch whatever it held before, and the
prior contents are irrelevant to the result. -/
theorem setup_overwrites_with_fresh_switch (world world' : Option Switch) (b : Bool) :
    Switch.setup world b = some (Switch.new b) ∧
    Switch.setup world b = Switch.setup world' b :=
  ⟨rfl, rfl⟩

/-- C7: `set(b)` equals `on()` when `b` and `off()` otherwise; after `set(b)`
the switch is on exactly when `b`; `is_off()` is always the negation of
`is_on()`; and `set(b)` is idempotent. -/
theorem set_matches_on_off :
    (∀ (s : Switch) (b : Bool), s.set b = if b then s.on else s.off) ∧
    (∀ (s : Switch) (b : Bool), (s.set b).is_on = b) ∧
    (∀ s : Switch, s.is_off = !s.is_on) ∧
    (∀ (s : Switch) (b : Bool), (s.set b).set b = s.set b) := by
  refine ⟨fun s b => rfl, ?_, fun s => rfl, ?_⟩ <;>
    · intro s b
      rcases s with ⟨jc, t, c⟩
      cases b <;> cases t <;>
        simp [Switch.set, Switch.on, Switch.off, Switch.is_on, Switch.is_off]

/-- C8: every switch state reachable from `new(b)` or from `default()` by the
shown mutating operations (`on`, `off`, `set`; the predicates and exported
condition systems do not mutate the switch) has `just_change = true`: it is
initialised to true at creation and no shown operation resets it. -/
theorem reachable_just_change_true {s : Switch} (h : Switch.Reachable s) :
    s.just_change = true := by
  induction h with
  | new b => rfl
  | mkDefault => rfl
  | on_step _ ih => exact Switch.on_just_change ih
  | off_step _ ih => exact Switch.off_just_change ih
  | set_step b _ ih => exact Switch.set_just_change b ih

/-- C8 witness: the invariant applied to the reachable state
`Switch::default().on().set(false)`. -/
theorem reachable_just_change_true_witness :
    ((Switch.mkDefault.on).set false).just_change = true :=
  reachable_just_change_true
    (Switch.Reachable.set_step false (Switch.Reachable.on_step Switch.Reachable.mkDefault))

/-- C9: with no `Switch` resource in the world, all four exported predicates
return `false` — in particular `switch_is_on` and `switch_is_off` are both
`false`, so neither is the other's negation here — and the two edge queries
moreover reset the caller's private latch to `false`, whatever it was. -/
theorem no_resource_all_predicates_false :
    switch_is_on none = false ∧
    switch_is_off none = false ∧
    (∀ latch : Bool, switch_just_turned_on none latch = (false, false)) ∧
    (∀ latch : Bool, switch_just_turned_off none latch = (false, false)) := by
  refine ⟨rfl, rfl, fun latch => rfl, fun latch => rfl⟩

/-- C10: an observer with a fresh latch (`false`) reports a spurious edge on
its first poll: if the switch is currently on, its first
`switch_just_turned_on` poll returns `true` (latching), even if the switch was
created on and never transitioned; symmetrically for an off switch and
`switch_just_turned_off`. -/
theorem fresh_latch_spurious_edge (s : Switch) :
    (s.is_on = true → switch_just_turned_on (some s) false = (true, true)) ∧
    (s.is_off = true → switch_just_turned_off (some s) false = (true, true)) := by
  rcases s with ⟨jc, t, c⟩
  cases t <;>
    simp [switch_just_turned_on, switch_just_turned_off, is_some_and,
      Switch.is_on, Switch.is_off]

/-- C10 witness: applied to switches created already-on (resp. already-off)
that have never transitioned. -/
theorem fresh_latch_spurious_edge_witness :
    switch_just_turned_on (some (Switch.new true)) false = (true, true) ∧
    switch_just_turned_off (some (Switch.new false)) false = (true, true) :=
  ⟨(fresh_latch_spurious_edge (Switch.new true)).1 (by decide),
   (fresh_latch_spurious_edge (Switch.new false)).2 (by decide)⟩

end BevyAsyncSystem
